import Mathlib

/-!
Shallow embedding of the feed synchronization core of the social-feed web
application (the CenterFeed component): the data model, the filter/sort
projection, the optimistic interaction handlers, the realtime-adapter state
transitions, and the link-preview URL extraction, together with theorems
about their behavior.

Conventions of the embedding:
- TypeScript nullable/optional fields become `Option`.
- JavaScript string truthiness (empty string is falsy) is made explicit.
- Post creation timestamps are modelled as the integer epoch value that
  `new Date(post.created_at).getTime()` yields; ISO-8601 parsing is an
  order-preserving injection, so comparisons on the parsed value are the
  comparisons the code performs.
- `Array.prototype.sort` is a stable comparison sort; for the consistent
  comparators used here the stable-sorted result is unique, so it is
  modelled by `List.insertionSort` on the relation comparator-result ≤ 0.
- Remote data-store calls resolve with a result value carrying an optional
  error (the supabase PostgrestBuilder resolves with a data/error pair and
  does not reject; the repository's own idiom `if error then throw error`
  elsewhere confirms errors arrive as values). A handler that discards the
  resolved value therefore never reaches its catch block through that call.
  Handlers are embedded as pure functions taking the remote results as
  arguments and returning the new state together with the user-visible
  effects (toasts, notification requests, refetch trigger).
-/

/-- Profile row, as consumed by the feed (username, avatar, role,
verification status, email). -/
structure Profile where
  id : String
  username : String
  avatar_url : Option String
  role : String
  verification_status : String
  email : Option String
deriving DecidableEq, Repr

/-- Authenticated user; only the id is consumed by the feed logic. -/
structure User where
  id : String
deriving DecidableEq, Repr

/-- Like row: synthesized likes carry a `Date.now()` numeric id. -/
structure Like where
  id : Nat
  post_id : String
  user_id : String
  created_at : String
deriving DecidableEq, Repr

/-- Comment row: synthesized comments carry a string temporary id. -/
structure Comment where
  id : String
  post_id : String
  user_id : String
  content : String
  created_at : String
  profiles : Option Profile
deriving DecidableEq, Repr

/-- Post row with nested author profile, likes and comments.
`created_at` is the parsed epoch timestamp (see module conventions). -/
structure Post where
  id : String
  user_id : String
  created_at : Int
  post_type : String
  content : Option String
  resource_title : Option String
  resource_category : Option String
  resource_contact : Option String
  image_url : Option String
  link_url : Option String
  link_title : Option String
  link_description : Option String
  link_image : Option String
  likes : Option (List Like)
  comments : Option (List Comment)
  profiles : Option Profile
deriving DecidableEq, Repr

/-- Resolved link preview (url, title, description, image). -/
structure LinkPreview where
  url : String
  title : String
  description : Option String
  image : Option String
deriving DecidableEq, Repr

/-- JavaScript `String.prototype.includes` on char lists: the needle occurs
as a contiguous substring of the haystack. -/
def containsSub (hay sub : List Char) : Bool :=
  hay.tails.any (fun t => sub.isPrefixOf t)

/-- JavaScript `s.includes(sub)`. -/
def jsIncludes (s sub : String) : Bool :=
  containsSub s.data sub.data

/-- The character class matched by the regex token backslash-s (JavaScript
whitespace). -/
def isJsWhitespace (c : Char) : Bool :=
  c = ' ' || c = '\t' || c = '\n' || c = '\r' || c = '\x0b' || c = '\x0c' ||
  c = '\u00A0' || c = '\u1680' || c = '\u2028' || c = '\u2029' ||
  c = '\u202F' || c = '\u205F' || c = '\u3000' || c = '\uFEFF' ||
  ('\u2000' ≤ c && c ≤ '\u200A')

/-- JavaScript `s.trim()`: strip leading and trailing whitespace (the
WhiteSpace and LineTerminator characters, the same set the regex token
backslash-s matches). -/
def jsTrim (s : String) : String :=
  (((s.data.dropWhile isJsWhitespace).reverse.dropWhile isJsWhitespace).reverse).asString

/-- The leading character class of URL_REGEX: not whitespace and none of
the five excluded punctuation characters. -/
def urlFirstClass (c : Char) : Bool :=
  !(isJsWhitespace c) && !(c = '/' || c = '$' || c = '.' || c = '?' || c = '#')

/-- The regex dot: any character other than a line terminator. -/
def jsDotMatches (c : Char) : Bool :=
  !(c = '\n' || c = '\r' || c = '\u2028' || c = '\u2029')

/-- Tail of URL_REGEX after the scheme name: one character of the leading
class, one dot-matched character, then a greedy run of non-whitespace. -/
def matchAfterAuthority : List Char → Option (List Char)
  | c1 :: c2 :: rest =>
    if urlFirstClass c1 && jsDotMatches c2 then
      some (c1 :: c2 :: rest.takeWhile (fun c => !(isJsWhitespace c)))
    else none
  | _ => none

/-- The literal `://` separator of URL_REGEX followed by the authority. -/
def matchSchemeSep : List Char → Option (List Char)
  | ':' :: '/' :: '/' :: rest =>
    (matchAfterAuthority rest).map (fun m => ':' :: '/' :: '/' :: m)
  | _ => none

/-- Attempt URL_REGEX (case-insensitive `https?` scheme, greedy optional
`s` with backtracking) at the head of the character list. -/
def matchUrlAt : List Char → Option (List Char)
  | c1 :: c2 :: c3 :: c4 :: rest =>
    if c1.toLower = 'h' && c2.toLower = 't' && c3.toLower = 't' && c4.toLower = 'p' then
      (match rest with
        | c5 :: rest2 =>
          if c5.toLower = 's' then
            (matchSchemeSep rest2).map (fun m => c1 :: c2 :: c3 :: c4 :: c5 :: m)
          else none
        | [] => none) <|>
      (matchSchemeSep rest).map (fun m => c1 :: c2 :: c3 :: c4 :: m)
    else none
  | _ => none

/-- Leftmost match of URL_REGEX, as `String.prototype.match` with a
non-global regex returns it. -/
def firstUrlMatch : List Char → Option (List Char)
  | [] => none
  | c :: rest => matchUrlAt (c :: rest) <|> firstUrlMatch rest

/-- `content.match(URL_REGEX)` reduced to its first capture: the leftmost
substring matched by URL_REGEX, if any. -/
def matchURL_REGEX (s : String) : Option String :=
  (firstUrlMatch s.data).map List.asString

/-- `fetchRichLinkPreview`, with the fixed resolution delay dropped: the
google branch is checked first, then the wikipedia branch, else the url
itself serves as title. -/
def fetchRichLinkPreview (url : String) : LinkPreview :=
  if jsIncludes url "google.com" then
    { url := url
      title := "Google - Search the world\x27s information"
      description := some "Search the world\x27s information, including webpages, images, videos and more."
      image := some "https://www.google.com/images/branding/googlelogo/1x/googlelogo_color_272x92dp.png" }
  else if jsIncludes url "wikipedia.org" then
    { url := url
      title := "Wikipedia, the free encyclopedia"
      description := some "Wikipedia is a free online encyclopedia, created and maintained by a community of volunteer editors through open collaboration and using a wiki-based editing system."
      image := some "https://upload.wikimedia.org/wikipedia/en/thumb/8/80/Wikipedia-logo-v2.svg/1200px-Wikipedia-logo-v2.svg.png" }
  else
    { url := url, title := url, description := none, image := none }

/-- `addPostToState`: prepend the new post to the previous posts. -/
def addPostToState (newPost : Post) (prevPosts : List Post) : List Post :=
  newPost :: prevPosts

/-- The realtime INSERT handler on the posts table: it passes the pushed
row straight to `addPostToState`. -/
def postsInsertHandler (payloadNew : Post) (posts : List Post) : List Post :=
  addPostToState payloadNew posts

/-- `removePostFromState`: keep every post whose id differs. -/
def removePostFromState (postId : String) (posts : List Post) : List Post :=
  posts.filter (fun p => !(decide (p.id = postId)))

/-- `updatePostInState` instantiated at the payload shape the like toggle
uses: shallow-merge a new likes collection into the matching post. -/
def updatePostLikes (postId : String) (newLikes : Option (List Like)) (posts : List Post) : List Post :=
  posts.map (fun p => if p.id = postId then { p with likes := newLikes } else p)

/-- One disjunct of the search predicate: optional-chained lowercase
`includes` against an optional string field. -/
def optIncludesLower (s : Option String) (q : String) : Bool :=
  match s with
  | none => false
  | some s => jsIncludes s.toLower q.toLower

/-- The search predicate of `filteredAndSortedPosts`: case-insensitive
substring match of the query against content, resource title, or the
author profile's username. -/
def matchesSearch (searchQuery : String) (post : Post) : Bool :=
  optIncludesLower post.content searchQuery ||
  optIncludesLower post.resource_title searchQuery ||
  optIncludesLower (post.profiles.map Profile.username) searchQuery

/-- The search step: `if (searchQuery) result = result.filter(...)` — the
empty string is falsy, so it skips the filter entirely. -/
def searchStep (searchQuery : String) (posts : List Post) : List Post :=
  if searchQuery ≠ "" then posts.filter (matchesSearch searchQuery) else posts

/-- The type-filter step: exact match on post kind unless the sentinel
"all" is selected. -/
def typeFilterStep (filter : String) (posts : List Post) : List Post :=
  if filter ≠ "all" then posts.filter (fun p => decide (p.post_type = filter)) else posts

/-- `a.likes?.length || 0`. -/
def likeCount (p : Post) : Nat :=
  (p.likes.getD []).length

/-- `a.comments?.length || 0`. -/
def commentCount (p : Post) : Nat :=
  (p.comments.getD []).length

/-- The sort-by-likes comparator: like-count difference when counts
differ, otherwise creation-time difference (both descending). -/
def likesCompare (a b : Post) : Int :=
  let likesA : Int := likeCount a
  let likesB : Int := likeCount b
  if likesB ≠ likesA then likesB - likesA
  else b.created_at - a.created_at

/-- The sort-by-comments comparator. -/
def commentsCompare (a b : Post) : Int :=
  let commentsA : Int := commentCount a
  let commentsB : Int := commentCount b
  if commentsB ≠ commentsA then commentsB - commentsA
  else b.created_at - a.created_at

/-- The default (most recent) comparator: creation-time difference,
descending. -/
def recentCompare (a b : Post) : Int :=
  b.created_at - a.created_at

/-- `a` may precede `b` under the sort-by-likes comparator. -/
def likesLe (a b : Post) : Prop := likesCompare a b ≤ 0

/-- `a` may precede `b` under the sort-by-comments comparator. -/
def commentsLe (a b : Post) : Prop := commentsCompare a b ≤ 0

/-- `a` may precede `b` under the most-recent comparator. -/
def recentLe (a b : Post) : Prop := recentCompare a b ≤ 0

instance : DecidableRel likesLe :=
  fun a b => inferInstanceAs (Decidable (likesCompare a b ≤ 0))

instance : DecidableRel commentsLe :=
  fun a b => inferInstanceAs (Decidable (commentsCompare a b ≤ 0))

instance : DecidableRel recentLe :=
  fun a b => inferInstanceAs (Decidable (recentCompare a b ≤ 0))

/-- The sort step of the projection, dispatching on the sort key. -/
def sortStep (sortBy : String) (result : List Post) : List Post :=
  if sortBy = "likes" then List.insertionSort likesLe result
  else if sortBy = "comments" then List.insertionSort commentsLe result
  else List.insertionSort recentLe result

/-- `filteredAndSortedPosts`: search filter, then type filter, then sort. -/
def filteredAndSortedPosts (posts : List Post) (searchQuery filter sortBy : String) : List Post :=
  sortStep sortBy (typeFilterStep filter (searchStep searchQuery posts))

/-- User-facing effect of a claim attempt: an error toast, an error toast
followed by a redirect, or revealing the donor details dialog. -/
inductive ClaimAction where
  | toastError (msg : String)
  | toastErrorAndRedirect (msg : String) (page : String)
  | revealDonorDetails (post : Post)
deriving DecidableEq, Repr

/-- `handleClaimResourceClick`: sequential precondition checks, first
failure returns; reaching the end sets the donor-details dialog. -/
def handleClaimResourceClick (user : Option User) (profile : Option Profile) (post : Post) : ClaimAction :=
  match user with
  | none => .toastError "You must be signed in to claim resources."
  | some _ =>
    if profile.map Profile.role ≠ some "student" then
      .toastError "Only students can claim resources."
    else if profile.map Profile.verification_status ≠ some "verified" then
      .toastErrorAndRedirect "You must be a verified student to claim resources. Please verify your profile." "/?page=verification"
    else
      .revealDonorDetails post

/-- `isClaimButtonDisabled`: the same chain plus the own-post check. -/
def isClaimButtonDisabled (user : Option User) (profile : Option Profile) (currentPost : Post) : Bool :=
  match user with
  | none => true
  | some u =>
    if profile.map Profile.role ≠ some "student" then true
    else if profile.map Profile.verification_status ≠ some "verified" then true
    else if currentPost.user_id = u.id then true
    else false

/-- `claimButtonTooltip`: the user-facing reason for the first failing
condition, or the affirmative label when all pass. -/
def claimButtonTooltip (user : Option User) (profile : Option Profile) (currentPost : Post) : String :=
  match user with
  | none => "Sign in to claim resources"
  | some u =>
    if profile.map Profile.role ≠ some "student" then "Only students can claim resources"
    else if profile.map Profile.verification_status ≠ some "verified" then "Verify your student profile to claim resources"
    else if currentPost.user_id = u.id then "You cannot claim your own resource"
    else "Claim this resource"

/-- A click on the claim button: the button carries
`disabled=isClaimButtonDisabled(post)`, and a disabled button does not
deliver the click, so `handleClaimResourceClick` runs only when the button
is enabled. -/
def claimButtonClick (user : Option User) (profile : Option Profile) (post : Post) : Option ClaimAction :=
  if isClaimButtonDisabled user profile post then none
  else some (handleClaimResourceClick user profile post)

/-- Resolved results of the remote calls a like toggle issues; each call
resolves with an optional error value (see module conventions). -/
structure LikeRemoteResults where
  deleteError : Option String
  insertError : Option String
  notifError : Option String
deriving DecidableEq, Repr

/-- State and user-visible effects produced by one like-toggle run. -/
structure LikeToggleOutcome where
  posts : List Post
  infoToasts : List String
  errorToasts : List String
  notificationSent : Bool
  refetchTriggered : Bool
deriving DecidableEq, Repr

/-- The optimistic step of `handleLikeToggle` on one post's likes: remove
the acting user's likes when present, else append a synthesized like
carrying a `Date.now()` id and the current ISO timestamp. -/
def optimisticLikesStep (uid postId : String) (synthId : Nat) (nowIso : String) (likes : Option (List Like)) : Option (List Like) :=
  if (likes.getD []).any (fun l => decide (l.user_id = uid)) then
    likes.map (List.filter (fun l => decide (l.user_id ≠ uid)))
  else
    some (likes.getD [] ++ [{ id := synthId, post_id := postId, user_id := uid, created_at := nowIso }])

/-- `handleLikeToggle`: precondition user and profile present; optimistic
likes update applied through `updatePostInState`; then the remote delete
or insert plus the conditional notification call. All three remote calls
resolve with a value that the handler discards without inspecting, so its
catch block is unreachable through them: no error toast, no refetch, and
no rollback can arise from a remote or notification failure. -/
def handleLikeToggle (user : Option User) (profile : Option Profile) (post : Post) (posts : List Post) (synthId : Nat) (nowIso : String) (remote : LikeRemoteResults) : LikeToggleOutcome :=
  match user, profile with
  | some u, some _ =>
    let hasLiked := (post.likes.getD []).any (fun l => decide (l.user_id = u.id))
    let optimisticLikes := optimisticLikesStep u.id post.id synthId nowIso post.likes
    let posts1 := updatePostLikes post.id optimisticLikes posts
    let _ := remote
    { posts := posts1
      infoToasts := []
      errorToasts := []
      notificationSent := !hasLiked && decide (post.user_id ≠ u.id)
      refetchTriggered := false }
  | _, _ =>
    { posts := posts
      infoToasts := ["Please sign in to like posts."]
      errorToasts := []
      notificationSent := false
      refetchTriggered := false }

/-- State and user-visible effects produced by one add-comment run. -/
structure AddCommentOutcome where
  posts : List Post
  draftCleared : Bool
  infoToasts : List String
  errorToasts : List String
  notificationSent : Bool
  refetchTriggered : Bool
deriving DecidableEq, Repr

/-- The optimistic apply of `handleAddComment`: append the synthesized
comment to the comment list of every post whose id is the target. -/
def addCommentToPosts (postId : String) (c : Comment) (posts : List Post) : List Post :=
  posts.map (fun p =>
    if p.id = postId then { p with comments := some (p.comments.getD [] ++ [c]) } else p)

/-- The targeted rollback of `handleAddComment`: drop comments carrying
the temporary id from the comment list of the target post. -/
def rollbackCommentFromPosts (postId tempId : String) (posts : List Post) : List Post :=
  posts.map (fun p =>
    if p.id = postId then
      { p with comments := p.comments.map (List.filter (fun c => decide (c.id ≠ tempId))) }
    else p)

/-- `handleAddComment`: precondition user present, trimmed draft
non-empty, profile present; optimistic append plus draft clear; on insert
error the targeted rollback and an error toast (the insert result is
inspected here, unlike the like toggle); on insert success the
notification decision against the pre-update posts snapshot and a forced
full refetch. -/
def handleAddComment (user : Option User) (profile : Option Profile) (postId : String) (draft : Option String) (posts : List Post) (tempId : String) (nowIso : String) (insertError : Option String) : AddCommentOutcome :=
  let commentText := jsTrim (draft.getD "")
  match user, profile with
  | some u, some pr =>
    if commentText = "" then
      { posts := posts, draftCleared := false
        infoToasts := ["Please sign in and write a comment."]
        errorToasts := [], notificationSent := false, refetchTriggered := false }
    else
      let optimisticComment : Comment :=
        { id := tempId, post_id := postId, user_id := u.id
          content := commentText, created_at := nowIso, profiles := some pr }
      let posts1 := addCommentToPosts postId optimisticComment posts
      match insertError with
      | some e =>
        { posts := rollbackCommentFromPosts postId tempId posts1
          draftCleared := true
          infoToasts := []
          errorToasts := [if e = "" then "Failed to add comment." else e]
          notificationSent := false
          refetchTriggered := false }
      | none =>
        let notified :=
          match posts.find? (fun p => decide (p.id = postId)) with
          | some post => decide (post.user_id ≠ u.id)
          | none => false
        { posts := posts1, draftCleared := true
          infoToasts := [], errorToasts := []
          notificationSent := notified, refetchTriggered := true }
  | _, _ =>
    { posts := posts, draftCleared := false
      infoToasts := ["Please sign in and write a comment."]
      errorToasts := [], notificationSent := false, refetchTriggered := false }

/-- Concrete post fixture with empty nested collections, used to evaluate
the theorems on explicit inputs. -/
def mkPost (id uid : String) (t : Int) : Post :=
  { id := id, user_id := uid, created_at := t, post_type := "wisdom"
    content := none, resource_title := none, resource_category := none
    resource_contact := none, image_url := none, link_url := none
    link_title := none, link_description := none, link_image := none
    likes := some [], comments := some [], profiles := none }

instance : IsTrans Post likesLe where
  trans a b c hab hbc := by
    simp only [likesLe, likesCompare] at *
    split at hab <;> split at hbc <;> split <;> omega

instance : IsTotal Post likesLe where
  total a b := by
    simp only [likesLe, likesCompare]
    split <;> split <;> omega

instance : IsTrans Post commentsLe where
  trans a b c hab hbc := by
    simp only [commentsLe, commentsCompare] at *
    split at hab <;> split at hbc <;> split <;> omega

instance : IsTotal Post commentsLe where
  total a b := by
    simp only [commentsLe, commentsCompare]
    split <;> split <;> omega

instance : IsTrans Post recentLe where
  trans a b c hab hbc := by
    simp only [recentLe, recentCompare] at *
    omega

instance : IsTotal Post recentLe where
  total a b := by
    simp only [recentLe, recentCompare]
    omega

theorem likesCompare_nonpos_iff (a b : Post) :
    likesCompare a b ≤ 0 ↔
      (likeCount b < likeCount a ∨
        (likeCount b = likeCount a ∧ b.created_at ≤ a.created_at)) := by
  simp only [likesCompare]
  split <;> omega

theorem recentCompare_nonpos_iff (a b : Post) :
    recentCompare a b ≤ 0 ↔ b.created_at ≤ a.created_at := by
  simp only [recentCompare]
  omega

theorem sortStep_likes_eq (l : List Post) :
    sortStep "likes" l = List.insertionSort likesLe l := by
  simp [sortStep]

theorem sortStep_recent_eq (l : List Post) :
    sortStep "created_at" l = List.insertionSort recentLe l := by
  simp [sortStep]

theorem searchStep_sublist (q : String) (posts : List Post) :
    (searchStep q posts).Sublist posts := by
  unfold searchStep
  split
  · exact List.filter_sublist posts
  · exact List.Sublist.refl posts

theorem typeFilterStep_sublist (f : String) (posts : List Post) :
    (typeFilterStep f posts).Sublist posts := by
  unfold typeFilterStep
  split
  · exact List.filter_sublist posts
  · exact List.Sublist.refl posts

/-- C1 counterexample: a realtime post-insert event whose pushed post
carries an identifier already present in the feed yields a collection with
two posts holding that identifier — the handler performs no upsert. -/
theorem claim1_counterexample :
    ((postsInsertHandler (mkPost "p1" "u2" 2) [mkPost "p1" "u1" 1]).countP
      (fun p => decide (p.id = "p1"))) = 2 := by
  decide

/-- C1 (amended): for every realtime post-insert event, the adapter
unconditionally prepends the pushed post to the post collection, with no
identifier check and no field merge; consequently the count of posts
carrying the pushed identifier always grows by one, so an insert event
whose identifier is already present leaves two posts with that
identifier. -/
theorem claim1_insert_always_prepends (post : Post) (posts : List Post) :
    postsInsertHandler post posts = post :: posts ∧
    (postsInsertHandler post posts).countP (fun p => decide (p.id = post.id)) =
      posts.countP (fun p => decide (p.id = post.id)) + 1 := by
  refine ⟨rfl, ?_⟩
  simp [postsInsertHandler, addPostToState, List.countP_cons]

/-- C9: for the input text containing the wikipedia URL followed by
whitespace, URL extraction yields exactly the URL terminated at the space,
and the resolved preview carries the fixed Wikipedia title string. -/
theorem claim9_url_extraction :
    matchURL_REGEX "Check https://wikipedia.org/x out" = some "https://wikipedia.org/x" ∧
    (fetchRichLinkPreview "https://wikipedia.org/x").title = "Wikipedia, the free encyclopedia" := by
  constructor
  · decide
  · decide

/-- C10: the optimistic apply of add-comment touches only the posts whose
identifier equals the target: the container keeps its length, every post
with a different identifier is unchanged at its position, and the target
post gets exactly the synthesized comment appended at the end of its
comment list with every other field unchanged; on the success path of a
precondition-passing invocation the handler's posts are exactly this
optimistic apply. -/
theorem claim10_comment_optimistic_frame (postId : String) (c : Comment) (posts : List Post) :
    (addCommentToPosts postId c posts).length = posts.length ∧
    (∀ i (hi : i < posts.length) (ho : i < (addCommentToPosts postId c posts).length),
      ((posts.get ⟨i, hi⟩).id ≠ postId →
        (addCommentToPosts postId c posts).get ⟨i, ho⟩ = posts.get ⟨i, hi⟩) ∧
      ((posts.get ⟨i, hi⟩).id = postId →
        (addCommentToPosts postId c posts).get ⟨i, ho⟩ =
          { posts.get ⟨i, hi⟩ with
              comments := some ((posts.get ⟨i, hi⟩).comments.getD [] ++ [c]) })) ∧
    (∀ (u : User) (pr : Profile) (draft : Option String) (nowIso : String),
      jsTrim (draft.getD "") ≠ "" →
      (handleAddComment (some u) (some pr) postId draft posts c.id nowIso none).posts =
        addCommentToPosts postId
          { id := c.id, post_id := postId, user_id := u.id
            content := jsTrim (draft.getD ""), created_at := nowIso, profiles := some pr }
          posts) := by
  refine ⟨?_, ?_, ?_⟩
  · simp [addCommentToPosts]
  · intro i hi ho
    have hmap : (addCommentToPosts postId c posts).get ⟨i, ho⟩ =
        if (posts.get ⟨i, hi⟩).id = postId then
          { posts.get ⟨i, hi⟩ with
              comments := some ((posts.get ⟨i, hi⟩).comments.getD [] ++ [c]) }
        else posts.get ⟨i, hi⟩ := by
      simp [addCommentToPosts, List.get_eq_getElem, List.getElem_map]
    constructor
    · intro hne
      rw [hmap, if_neg hne]
    · intro heq
      rw [hmap, if_pos heq]
  · intro u pr draft nowIso hdraft
    simp only [handleAddComment, if_neg hdraft]

/-- C10 witness: on a two-post container targeting the second post, the
first post is untouched and the second gets the comment appended. -/
theorem claim10_witness :
    (addCommentToPosts "b" (⟨"tmp-1", "b", "u9", "hi", "now", none⟩ : Comment)
      [mkPost "a" "u1" 1, mkPost "b" "u2" 2]).get ⟨0, by decide⟩ = mkPost "a" "u1" 1 := by
  have h := (claim10_comment_optimistic_frame "b"
    (⟨"tmp-1", "b", "u9", "hi", "now", none⟩ : Comment)
    [mkPost "a" "u1" 1, mkPost "b" "u2" 2]).2.1 0 (by decide) (by decide)
  exact h.1 (by decide)

/-- C2: the claim path evaluates authenticated / student role / verified
status / not-own-post in order; the first failing condition fixes the
user-facing reason (tooltip and handler agree); an unauthenticated caller
is blocked with the auth-required reason and no donor details are
revealed; every caller who authored the post finds the button disabled,
so the click never reveals the details; with all four conditions met the
click reveals the donor details. -/
theorem claim2_claim_precondition_chain (user : Option User) (profile : Option Profile) (post : Post) :
    (user = none →
      handleClaimResourceClick user profile post =
        .toastError "You must be signed in to claim resources." ∧
      claimButtonTooltip user profile post = "Sign in to claim resources" ∧
      claimButtonClick user profile post = none) ∧
    (∀ u, user = some u → profile.map Profile.role ≠ some "student" →
      handleClaimResourceClick user profile post =
        .toastError "Only students can claim resources." ∧
      claimButtonTooltip user profile post = "Only students can claim resources" ∧
      claimButtonClick user profile post = none) ∧
    (∀ u, user = some u → profile.map Profile.role = some "student" →
      profile.map Profile.verification_status ≠ some "verified" →
      handleClaimResourceClick user profile post =
        .toastErrorAndRedirect
          "You must be a verified student to claim resources. Please verify your profile."
          "/?page=verification" ∧
      claimButtonTooltip user profile post = "Verify your student profile to claim resources" ∧
      claimButtonClick user profile post = none) ∧
    (∀ u, user = some u → post.user_id = u.id →
      claimButtonClick user profile post = none) ∧
    (∀ u, user = some u → profile.map Profile.role = some "student" →
      profile.map Profile.verification_status = some "verified" → post.user_id = u.id →
      claimButtonTooltip user profile post = "You cannot claim your own resource") ∧
    (∀ u, user = some u → profile.map Profile.role = some "student" →
      profile.map Profile.verification_status = some "verified" → post.user_id ≠ u.id →
      claimButtonClick user profile post = some (.revealDonorDetails post)) := by
  refine ⟨?_, ?_, ?_, ?_, ?_, ?_⟩
  · rintro rfl
    exact ⟨rfl, rfl, rfl⟩
  · rintro u rfl hrole
    exact ⟨by simp [handleClaimResourceClick, hrole],
           by simp [claimButtonTooltip, hrole],
           by simp [claimButtonClick, isClaimButtonDisabled, hrole]⟩
  · rintro u rfl hrole hver
    refine ⟨?_, ?_, ?_⟩
    · simp [handleClaimResourceClick, hrole, hver]
    · simp [claimButtonTooltip, hrole, hver]
    · simp [claimButtonClick, isClaimButtonDisabled, hrole, hver]
  · rintro u rfl hown
    simp [claimButtonClick, isClaimButtonDisabled, hown]
  · rintro u rfl hrole hver hown
    simp [claimButtonTooltip, hrole, hver, hown]
  · rintro u rfl hrole hver hown
    simp [claimButtonClick, isClaimButtonDisabled, handleClaimResourceClick, hrole, hver, hown]

/-- C2 witness: the unauthenticated branch and the own-post branch of the
precondition chain at concrete inputs. -/
theorem claim2_witness :
    (handleClaimResourceClick none
        (some ⟨"d1", "donor1", none, "student", "verified", none⟩) (mkPost "p1" "d1" 1) =
      .toastError "You must be signed in to claim resources.") ∧
    (claimButtonClick (some ⟨"d1"⟩)
        (some ⟨"d1", "donor1", none, "student", "verified", none⟩) (mkPost "p1" "d1" 1) = none) := by
  constructor
  · exact ((claim2_claim_precondition_chain none
      (some ⟨"d1", "donor1", none, "student", "verified", none⟩) (mkPost "p1" "d1" 1)).1 rfl).1
  · exact (claim2_claim_precondition_chain (some ⟨"d1"⟩)
      (some ⟨"d1", "donor1", none, "student", "verified", none⟩)
      (mkPost "p1" "d1" 1)).2.2.2.1 ⟨"d1"⟩ rfl rfl

/-- C3: when the acting user does not yet like the post and the post
author differs from the acting user, the like toggle fires the "like"
notification request, and that request is best-effort: the outcome —
state, toasts, refetch — is the same whatever the resolved results of the
remote calls, so a notification failure surfaces no error, triggers no
refetch and rolls nothing back. -/
theorem claim3_like_notification_best_effort (u : User) (pr : Profile) (post : Post)
    (posts : List Post) (synthId : Nat) (nowIso : String) (r r2 : LikeRemoteResults)
    (hnotliked : (post.likes.getD []).any (fun l => decide (l.user_id = u.id)) = false)
    (hauthor : post.user_id ≠ u.id) :
    (handleLikeToggle (some u) (some pr) post posts synthId nowIso r).notificationSent = true ∧
    handleLikeToggle (some u) (some pr) post posts synthId nowIso r =
      handleLikeToggle (some u) (some pr) post posts synthId nowIso r2 ∧
    (handleLikeToggle (some u) (some pr) post posts synthId nowIso r).errorToasts = [] ∧
    (handleLikeToggle (some u) (some pr) post posts synthId nowIso r).refetchTriggered = false := by
  refine ⟨?_, rfl, rfl, rfl⟩
  simp [handleLikeToggle, hnotliked, hauthor]

/-- C3 witness: a failing notification call at a concrete input changes
nothing in the outcome, and the notification is fired. -/
theorem claim3_witness :
    (handleLikeToggle (some ⟨"u2"⟩) (some ⟨"p2", "bob", none, "student", "verified", none⟩)
        (mkPost "p1" "u1" 1) [mkPost "p1" "u1" 1] 5 "now"
        ⟨none, none, some "notification failure"⟩).notificationSent = true ∧
    handleLikeToggle (some ⟨"u2"⟩) (some ⟨"p2", "bob", none, "student", "verified", none⟩)
        (mkPost "p1" "u1" 1) [mkPost "p1" "u1" 1] 5 "now"
        ⟨none, none, some "notification failure"⟩ =
      handleLikeToggle (some ⟨"u2"⟩) (some ⟨"p2", "bob", none, "student", "verified", none⟩)
        (mkPost "p1" "u1" 1) [mkPost "p1" "u1" 1] 5 "now" ⟨none, none, none⟩ := by
  have h := claim3_like_notification_best_effort ⟨"u2"⟩
    ⟨"p2", "bob", none, "student", "verified", none⟩ (mkPost "p1" "u1" 1)
    [mkPost "p1" "u1" 1] 5 "now" ⟨none, none, some "notification failure"⟩
    ⟨none, none, none⟩ (by decide) (by decide)
  exact ⟨h.1, h.2.1⟩

/-- C4: applying the like toggle's optimistic update twice in succession
leaves the membership of the set of user identifiers holding a like on
the post unchanged, for every user, every starting likes collection and
every pair of synthesized like records. -/
theorem claim4_like_double_toggle_membership (uid postId : String) (id1 id2 : Nat)
    (now1 now2 : String) (likes : Option (List Like)) (v : String) :
    v ∈ ((optimisticLikesStep uid postId id2 now2
            (optimisticLikesStep uid postId id1 now1 likes)).getD []).map Like.user_id ↔
      v ∈ (likes.getD []).map Like.user_id := by
  rcases likes with _ | ls
  · simp [optimisticLikesStep]
  · by_cases h : ls.any (fun l => decide (l.user_id = uid)) = true
    · have h2 : (List.filter (fun l => decide (l.user_id ≠ uid)) ls).any
          (fun l => decide (l.user_id = uid)) = false := by
        rw [List.any_eq_false]
        intro l hl
        simp only [List.mem_filter, decide_eq_true_eq, ne_eq] at hl
        simp [hl.2]
      have step1 : optimisticLikesStep uid postId id1 now1 (some ls) =
          some (List.filter (fun l => decide (l.user_id ≠ uid)) ls) := by
        simp [optimisticLikesStep, h]
      have step2 : optimisticLikesStep uid postId id2 now2
          (some (List.filter (fun l => decide (l.user_id ≠ uid)) ls)) =
          some (List.filter (fun l => decide (l.user_id ≠ uid)) ls ++
            [{ id := id2, post_id := postId, user_id := uid, created_at := now2 }]) := by
        simp [optimisticLikesStep, h2]
      rw [step1, step2]
      simp only [Option.getD_some, List.map_append, List.map_cons, List.map_nil,
        List.mem_append, List.mem_map, List.mem_filter, List.mem_singleton,
        decide_eq_true_eq, ne_eq]
      constructor
      · rintro (⟨x, ⟨hx, _⟩, hv⟩ | rfl)
        · exact ⟨x, hx, hv⟩
        · obtain ⟨x, hx, hxu⟩ := List.any_eq_true.mp h
          exact ⟨x, hx, by simpa using hxu⟩
      · rintro ⟨x, hx, rfl⟩
        by_cases hxu : x.user_id = uid
        · right
          exact hxu
        · left
          exact ⟨x, ⟨hx, hxu⟩, rfl⟩
    · rw [Bool.not_eq_true] at h
      have h1 : ((ls ++ [(⟨id1, postId, uid, now1⟩ : Like)]).any
          (fun l => decide (l.user_id = uid))) = true := by
        simp
      have h3 : List.filter (fun l => decide (l.user_id ≠ uid)) ls = ls := by
        rw [List.filter_eq_self]
        intro a ha
        have := List.any_eq_false.mp h a ha
        simp only [decide_eq_true_eq] at this
        simp [this]
      simp only [optimisticLikesStep, Option.getD_some, h, Bool.false_eq_true, if_false]
      simp only [optimisticLikesStep, Option.getD_some, h1, if_true]
      simp only [Option.map_some', Option.getD_some, List.filter_append]
      rw [h3]
      simp

theorem rollback_after_add (postId tempId : String) (c : Comment) (hc : c.id = tempId)
    (posts : List Post)
    (hfresh : ∀ p ∈ posts, ∀ d ∈ p.comments.getD [], d.id ≠ tempId)
    (hsome : ∀ p ∈ posts, p.id = postId → p.comments.isSome = true) :
    rollbackCommentFromPosts postId tempId (addCommentToPosts postId c posts) = posts := by
  induction posts with
  | nil => rfl
  | cons p ps ih =>
    have hfresh_p := hfresh p (List.mem_cons_self p ps)
    have hfresh_ps : ∀ q ∈ ps, ∀ d ∈ q.comments.getD [], d.id ≠ tempId :=
      fun q hq => hfresh q (List.mem_cons_of_mem p hq)
    have hsome_ps : ∀ q ∈ ps, q.id = postId → q.comments.isSome = true :=
      fun q hq => hsome q (List.mem_cons_of_mem p hq)
    have htail := ih hfresh_ps hsome_ps
    simp only [addCommentToPosts, rollbackCommentFromPosts, List.map_cons] at htail ⊢
    rw [htail]
    by_cases hp : p.id = postId
    · obtain ⟨cs, hcs⟩ := Option.isSome_iff_exists.mp (hsome p (List.mem_cons_self p ps) hp)
      have hkeep : List.filter (fun d => decide (d.id ≠ tempId)) cs = cs := by
        rw [List.filter_eq_self]
        intro d hd
        have := hfresh_p d (by rw [hcs]; simpa using hd)
        simp [this]
      have hdrop : List.filter (fun d => decide (d.id ≠ tempId)) [c] = [] := by
        simp [hc]
      simp only [if_pos hp, hcs, Option.getD_some, Option.map_some', List.filter_append,
        hkeep, hdrop, List.append_nil]
      rw [← hcs]
    · simp only [if_neg hp]

/-- C5: when the remote comment insert fails, the targeted rollback
removes exactly the synthesized comment — identified by its temporary id,
which occurs in no existing comment — restoring the container to exactly
its pre-insert state (every other comment and every other post
untouched), and no refetch is triggered by the failure. -/
theorem claim5_comment_rollback_exact (u : User) (pr : Profile) (postId : String)
    (draft : Option String) (posts : List Post) (tempId nowIso e : String)
    (hdraft : jsTrim (draft.getD "") ≠ "")
    (hfresh : ∀ p ∈ posts, ∀ d ∈ p.comments.getD [], d.id ≠ tempId)
    (hsome : ∀ p ∈ posts, p.id = postId → p.comments.isSome = true) :
    (handleAddComment (some u) (some pr) postId draft posts tempId nowIso (some e)).posts =
      posts ∧
    (handleAddComment (some u) (some pr) postId draft posts tempId nowIso
      (some e)).refetchTriggered = false := by
  constructor
  · simp only [handleAddComment, if_neg hdraft]
    exact rollback_after_add postId tempId _ rfl posts hfresh hsome
  · simp only [handleAddComment, if_neg hdraft]

/-- C5 witness: a failed insert at a concrete two-post container restores
the container exactly and triggers no refetch. -/
theorem claim5_witness :
    (handleAddComment (some ⟨"u9"⟩) (some ⟨"p9", "carol", none, "student", "verified", none⟩)
        "b" (some " hi there ") [mkPost "a" "u1" 1, mkPost "b" "u2" 2] "tmp-7" "now"
        (some "insert rejected")).posts = [mkPost "a" "u1" 1, mkPost "b" "u2" 2] := by
  exact (claim5_comment_rollback_exact ⟨"u9"⟩
    ⟨"p9", "carol", none, "student", "verified", none⟩ "b" (some " hi there ")
    [mkPost "a" "u1" 1, mkPost "b" "u2" 2] "tmp-7" "now" "insert rejected"
    (by decide) (by decide) (by decide)).1

/-- C6: under sort-by-likes, any two posts of the projected output that
are tied on like-count appear in descending creation-time order, and the
tie-break is exact: with distinct creation times the newer post strictly
precedes the older. -/
theorem claim6_likes_sort_tiebreak (posts : List Post) (q f : String) (i j : Nat)
    (hi : i < (filteredAndSortedPosts posts q f "likes").length)
    (hj : j < (filteredAndSortedPosts posts q f "likes").length)
    (hij : i < j)
    (htie : likeCount ((filteredAndSortedPosts posts q f "likes").get ⟨i, hi⟩) =
            likeCount ((filteredAndSortedPosts posts q f "likes").get ⟨j, hj⟩)) :
    ((filteredAndSortedPosts posts q f "likes").get ⟨j, hj⟩).created_at ≤
      ((filteredAndSortedPosts posts q f "likes").get ⟨i, hi⟩).created_at ∧
    (((filteredAndSortedPosts posts q f "likes").get ⟨i, hi⟩).created_at ≠
      ((filteredAndSortedPosts posts q f "likes").get ⟨j, hj⟩).created_at →
      ((filteredAndSortedPosts posts q f "likes").get ⟨j, hj⟩).created_at <
        ((filteredAndSortedPosts posts q f "likes").get ⟨i, hi⟩).created_at) := by
  have hsorted : (filteredAndSortedPosts posts q f "likes").Pairwise likesLe := by
    show (sortStep "likes" (typeFilterStep f (searchStep q posts))).Pairwise likesLe
    rw [sortStep_likes_eq]
    exact List.sorted_insertionSort likesLe _
  have hle := List.pairwise_iff_get.mp hsorted ⟨i, hi⟩ ⟨j, hj⟩ hij
  have := (likesCompare_nonpos_iff _ _).mp hle
  omega

/-- C6 witness: two posts with equal like-counts and distinct creation
times, projected under sort-by-likes, appear newest first. -/
theorem claim6_witness :
    ((filteredAndSortedPosts [mkPost "old" "u1" 5, mkPost "new" "u2" 9] "" "all" "likes").get
        ⟨1, by decide⟩).created_at <
      ((filteredAndSortedPosts [mkPost "old" "u1" 5, mkPost "new" "u2" 9] "" "all" "likes").get
        ⟨0, by decide⟩).created_at := by
  exact (claim6_likes_sort_tiebreak [mkPost "old" "u1" 5, mkPost "new" "u2" 9] "" "all" 0 1
    (by decide) (by decide) (by decide) (by decide)).2 (by decide)

/-- C7: under the default most-recent sort, when the input posts carry
pairwise distinct creation times, position strictly before in the
projected output is equivalent to strictly greater creation time. -/
theorem claim7_recent_sort_order (posts : List Post) (q f : String)
    (hdist : posts.Pairwise (fun a b => a.created_at ≠ b.created_at)) (i j : Nat)
    (hi : i < (filteredAndSortedPosts posts q f "created_at").length)
    (hj : j < (filteredAndSortedPosts posts q f "created_at").length) :
    i < j ↔
      ((filteredAndSortedPosts posts q f "created_at").get ⟨j, hj⟩).created_at <
        ((filteredAndSortedPosts posts q f "created_at").get ⟨i, hi⟩).created_at := by
  have hsorted : (filteredAndSortedPosts posts q f "created_at").Pairwise recentLe := by
    show (sortStep "created_at" (typeFilterStep f (searchStep q posts))).Pairwise recentLe
    rw [sortStep_recent_eq]
    exact List.sorted_insertionSort recentLe _
  have hmid : (typeFilterStep f (searchStep q posts)).Pairwise
      (fun a b => a.created_at ≠ b.created_at) :=
    List.Pairwise.sublist
      ((typeFilterStep_sublist f (searchStep q posts)).trans
        (searchStep_sublist q posts)) hdist
  have hperm : (List.insertionSort recentLe (typeFilterStep f (searchStep q posts))).Perm
      (typeFilterStep f (searchStep q posts)) :=
    List.perm_insertionSort recentLe _
  have hdout : (filteredAndSortedPosts posts q f "created_at").Pairwise
      (fun a b => a.created_at ≠ b.created_at) := by
    show (sortStep "created_at" (typeFilterStep f (searchStep q posts))).Pairwise _
    rw [sortStep_recent_eq]
    exact (hperm.pairwise_iff (fun hxy => hxy.symm)).mpr hmid
  have key : ∀ a b : Nat, ∀ (ha : a < (filteredAndSortedPosts posts q f "created_at").length)
      (hb : b < (filteredAndSortedPosts posts q f "created_at").length), a < b →
      ((filteredAndSortedPosts posts q f "created_at").get ⟨b, hb⟩).created_at <
        ((filteredAndSortedPosts posts q f "created_at").get ⟨a, ha⟩).created_at := by
    intro a b ha hb hab
    have hle := List.pairwise_iff_get.mp hsorted ⟨a, ha⟩ ⟨b, hb⟩ hab
    have hne := List.pairwise_iff_get.mp hdout ⟨a, ha⟩ ⟨b, hb⟩ hab
    have := (recentCompare_nonpos_iff _ _).mp hle
    omega
  constructor
  · exact key i j hi hj
  · intro hlt
    rcases lt_trichotomy i j with h | h | h
    · exact h
    · subst h
      exact absurd hlt (lt_irrefl _)
    · exact absurd (key j i hj hi h) (by omega)

/-- C7 witness: three posts created at times 1 < 2 < 3 under the default
sort are projected in the order of times 3, 2, 1, and position 0 precedes
position 1 exactly because its creation time is greater. -/
theorem claim7_witness :
    (filteredAndSortedPosts [mkPost "t1" "u" 1, mkPost "t2" "u" 2, mkPost "t3" "u" 3]
        "" "all" "created_at").map Post.id = ["t3", "t2", "t1"] ∧
    ((filteredAndSortedPosts [mkPost "t1" "u" 1, mkPost "t2" "u" 2, mkPost "t3" "u" 3]
        "" "all" "created_at").get ⟨1, by decide⟩).created_at <
      ((filteredAndSortedPosts [mkPost "t1" "u" 1, mkPost "t2" "u" 2, mkPost "t3" "u" 3]
        "" "all" "created_at").get ⟨0, by decide⟩).created_at := by
  constructor
  · decide
  · exact (claim7_recent_sort_order
      [mkPost "t1" "u" 1, mkPost "t2" "u" 2, mkPost "t3" "u" 3] "" "all"
      (by decide) 0 1 (by decide) (by decide)).mp (by decide)

/-- C8: the search step keeps exactly the posts whose content, resource
title, or author username contains the query as a case-insensitive
substring; the empty-string query passes every post through unchanged, so
the projection on the empty query is determined by the type filter and
the sort alone. -/
theorem claim8_search_step (q : String) (posts : List Post) :
    (q ≠ "" → ∀ p, p ∈ searchStep q posts ↔ p ∈ posts ∧ matchesSearch q p = true) ∧
    searchStep "" posts = posts ∧
    (∀ f s, filteredAndSortedPosts posts "" f s = sortStep s (typeFilterStep f posts)) := by
  refine ⟨?_, ?_, ?_⟩
  · intro hq p
    simp [searchStep, hq, List.mem_filter]
  · simp [searchStep]
  · intro f s
    simp [filteredAndSortedPosts, searchStep]

/-- C8 witness: a non-empty query keeps a matching post, and the
empty-query projection equals the filter-and-sort of the untouched
container, at concrete inputs. -/
theorem claim8_witness :
    (mkPost "a" "u1" 1 ∈ searchStep "hello" [mkPost "a" "u1" 1] ↔
      mkPost "a" "u1" 1 ∈ [mkPost "a" "u1" 1] ∧
        matchesSearch "hello" (mkPost "a" "u1" 1) = true) ∧
    searchStep "" [mkPost "a" "u1" 1] = [mkPost "a" "u1" 1] := by
  constructor
  · exact (claim8_search_step "hello" [mkPost "a" "u1" 1]).1 (by decide) (mkPost "a" "u1" 1)
  · exact (claim8_search_step "hello" [mkPost "a" "u1" 1]).2.1
